import Mathlib

/-!
Verification of the voice-bot audio client: the audio-worklet frame
accumulator (client/src/audio-processor.js) and the `VoiceBotClient`
session logic (client/src/main.js), embedded shallowly.  Samples are
modelled as rationals: every arithmetic step the client performs on a
sample (scaling by 32768 = 2^15, clamping, truncation to a 16-bit
integer) is exact on binary floating-point values, so the rational
embedding is faithful on representable inputs.
-/

set_option autoImplicit false

namespace VoiceBot

/-! ### Frame Accumulator (AudioProcessor.process / sendAudioFrame)

The worklet keeps a buffer of capacity `frameSize` and a write cursor
`bufferIndex`; each incoming sample is written at the cursor, the cursor
advances, and when it reaches `frameSize` the full buffer is emitted as
one frame and the cursor resets to zero.  We model the buffer contents
written since the last emission as a list `pending` (its length is the
cursor), a delivered chunk as a list of samples, and the stream as a
list of chunks.  `procChunk` returns the new pending buffer and the
frames emitted while consuming the chunk, in emission order. -/

def procChunk {α : Type} (frameSize : Nat) : List α → List α → List α × List (List α)
  | pending, [] => (pending, [])
  | pending, x :: rest =>
    if frameSize ≤ pending.length + 1 then
      let r := procChunk frameSize [] rest
      (r.1, (pending ++ [x]) :: r.2)
    else
      procChunk frameSize (pending ++ [x]) rest

/-- Feeding a whole stream of chunks through `AudioProcessor.process`,
threading the pending buffer, collecting all emitted frames. -/
def procStream {α : Type} (frameSize : Nat) : List α → List (List α) → List α × List (List α)
  | pending, [] => (pending, [])
  | pending, c :: cs =>
    let r := procChunk frameSize pending c
    let r' := procStream frameSize r.1 cs
    (r'.1, r.2 ++ r'.2)

/-! ### Format Codec (VoiceBotClient.sendAudioData, encoding half)

The client computes `Math.max(-32768, Math.min(32767, sample * 32768))`
and stores the result into an `Int16Array`; the store converts the
(already clamped) value to an integer by truncation toward zero. -/

/-- Truncation toward zero, the conversion applied by an `Int16Array`
element store to an in-range value. -/
def truncRat (q : ℚ) : ℤ := if 0 ≤ q then ⌊q⌋ else ⌈q⌉

/-- The per-sample encoder of `sendAudioData`: clamp `sample * 32768`
to [-32768, 32767] as a rational, then store into the `Int16Array`
(truncation toward zero). -/
def encodeSample (x : ℚ) : ℤ :=
  truncRat (max (-32768) (min 32767 (x * 32768)))

/-- The elementwise encoding loop of `sendAudioData`. -/
def encodeFrame (frame : List ℚ) : List ℤ := frame.map encodeSample

/-- Modelled from the spec's words (§3): `sample16 = clamp(round(sample
* 32768), -32768, 32767)`, with `round` the usual round-half-up.  Kept
separate from `encodeSample` (the code's behaviour) for comparison. -/
def specEncodeSample (x : ℚ) : ℤ :=
  max (-32768) (min 32767 (round (x * 32768)))

/-! ### Session state (VoiceBotClient) -/

/-- The connection states named by the status updates of the client. -/
inductive Status
  | disconnected
  | connecting
  | connected
  | listening
  | speaking
  deriving DecidableEq, Repr

/-- `WebSocket.readyState`; `opened` stands for the JS constant
`WebSocket.OPEN` (Lean reserves the word). -/
inductive WsReadyState
  | connecting
  | opened
  | closing
  | closed
  deriving DecidableEq, Repr

/-- A JSON control message; only the `type` discriminator matters to
the client logic modelled here. -/
structure ControlMessage where
  type : String
  deriving DecidableEq, Repr

/-- One transmission over the socket: a binary PCM frame or a text
control message. -/
inductive WireSend
  | binary : List ℤ → WireSend
  | text : ControlMessage → WireSend
  deriving DecidableEq, Repr

/-- The mutable fields of `VoiceBotClient` read or written by
`cleanup`, plus the socket ready state (`ws = some r` when
`this.ws` is non-null with readyState `r`). -/
structure ClientState where
  ws : Option WsReadyState
  audioContext : Bool
  mediaStream : Bool
  audioWorkletNode : Bool
  mockAudioInterval : Option Nat
  isConnected : Bool
  isMuted : Bool
  connectBtnText : String
  muteBtnDisabled : Bool
  muteBtnText : String
  deriving DecidableEq, Repr

/-- The release operations `cleanup` can perform on held resources. -/
inductive ReleaseStep
  | clearMockInterval
  | wsClose
  | workletDisconnect
  | contextClose
  | streamStop
  deriving DecidableEq, Repr

/-- `VoiceBotClient.cleanup`: each held resource is released behind an
`if (this.x)` null-guard and the field nulled; then the UI and flags
are reset (`isConnected = false`, button labels restored,
`isMuted = false`).  Returns the new state and the release operations
actually performed. -/
def cleanup (s : ClientState) : ClientState × List ReleaseStep :=
  ({ ws := none, audioContext := false, mediaStream := false,
     audioWorkletNode := false, mockAudioInterval := none,
     isConnected := false, isMuted := false,
     connectBtnText := "接続", muteBtnDisabled := true, muteBtnText := "ミュート" },
   (if s.mockAudioInterval.isSome then [ReleaseStep.clearMockInterval] else []) ++
     (if s.ws.isSome then [ReleaseStep.wsClose] else []) ++
     (if s.audioWorkletNode then [ReleaseStep.workletDisconnect] else []) ++
     (if s.audioContext then [ReleaseStep.contextClose] else []) ++
     (if s.mediaStream then [ReleaseStep.streamStop] else []))

/-- `VoiceBotClient.disconnect` calls `cleanup` and then updates the
status display (no further state change). -/
def disconnect (s : ClientState) : ClientState × List ReleaseStep := cleanup s

/-- `VoiceBotClient.sendAudioData`: when `this.ws` exists and its
readyState is OPEN, encode the frame to 16-bit PCM and send it;
otherwise do nothing.  No client field is assigned either way. -/
def sendAudioData (s : ClientState) (audioData : List ℚ) : ClientState × List WireSend :=
  match s.ws with
  | some WsReadyState.opened => (s, [WireSend.binary (encodeFrame audioData)])
  | _ => (s, [])

/-- `VoiceBotClient.sendControlMessage`: same OPEN-socket guard, text
payload. -/
def sendControlMessage (s : ClientState) (message : ControlMessage) : ClientState × List WireSend :=
  match s.ws with
  | some WsReadyState.opened => (s, [WireSend.text message])
  | _ => (s, [])

/-! ### Heartbeat (startPingInterval) -/

/-- The body of the `setInterval` callback installed by
`startPingInterval`: if `client.isConnected`, send `{type: ping}`. -/
def pingTimerCallback (client : ClientState) : List WireSend :=
  if client.isConnected then (sendControlMessage client ⟨"ping"⟩).2 else []

/-- All wire sends produced by the heartbeat timer within the first
`seconds` seconds of a session whose state at time `t` is
`sessionAt t`: the interval fires at 30, 60, 90, … seconds. -/
def pingsSentOver (sessionAt : Nat → ClientState) (seconds : Nat) : List WireSend :=
  ((List.range (seconds / 30)).map fun k => pingTimerCallback (sessionAt (30 * (k + 1)))).join

/-! ### Capture paths (setupRealAudio onmessage handler, mock tick) -/

/-- The observable actions a captured frame can trigger on the main
thread. -/
inductive AudioAction
  | send : List ℚ → AudioAction
  | visualize : List ℚ → AudioAction
  | setStatus : Status → AudioAction
  deriving DecidableEq, Repr

/-- The worklet-port `onmessage` handler installed by
`setupRealAudio`: only when the message is `audioData` and the client
is not muted does it call `sendAudioData`, `updateAudioVisualizer` and
`updateStatus('listening')`, in that order; otherwise it does
nothing. -/
def onWorkletMessage (isMuted : Bool) (msgType : String) (data : List ℚ) : List AudioAction :=
  if msgType == "audioData" && !isMuted then
    [AudioAction.send data, AudioAction.visualize data, AudioAction.setStatus Status.listening]
  else []

/-- One firing of the 20 ms `setInterval` installed by
`setupMockAudio`: only when not muted and connected does it build a
mock frame and call `sendAudioData` and `updateAudioVisualizer`.  (The
occasional status update inside the branch is gated on a random draw
and performs no send or visualizer call; it is omitted here.) -/
def mockAudioTick (isMuted isConnected : Bool) (mockData : List ℚ) : List AudioAction :=
  if !isMuted && isConnected then
    [AudioAction.send mockData, AudioAction.visualize mockData]
  else []

/-! ### Connect flow (connect / initializeAudio) -/

/-- Which of the fallible steps of a connect attempt succeed in a
given run. -/
structure ConnectEnv where
  micOk : Bool
  realSetupOk : Bool
  mockSetupOk : Bool
  wsOk : Bool
  deriving DecidableEq, Repr

/-- Which capture path `initializeAudio` ends up wiring. -/
inductive AudioMode
  | real
  | mock
  deriving DecidableEq, Repr

/-- `navigator.mediaDevices.getUserMedia`: fails when no capture
device is available or permission is denied. -/
def getUserMedia (env : ConnectEnv) : Except String Unit :=
  if env.micOk then Except.ok () else Except.error "mic unavailable"

/-- `VoiceBotClient.setupRealAudio`: audio context, worklet module and
node creation; any of these may throw. -/
def setupRealAudio (env : ConnectEnv) : Except String AudioMode :=
  if env.realSetupOk then Except.ok AudioMode.real else Except.error "real audio setup failed"

/-- `VoiceBotClient.setupMockAudio`: audio context creation and mock
interval installation; may throw. -/
def setupMockAudio (env : ConnectEnv) : Except String AudioMode :=
  if env.mockSetupOk then Except.ok AudioMode.mock else Except.error "mock audio setup failed"

/-- `VoiceBotClient.initializeAudio`: the inner try runs
`getUserMedia` then `setupRealAudio`; its catch falls back to
`setupMockAudio`; the outer catch wraps any remaining failure in a new
error. -/
def initializeAudio (env : ConnectEnv) : Except String AudioMode :=
  match getUserMedia env >>= fun _ => setupRealAudio env with
  | Except.ok m => Except.ok m
  | Except.error _ =>
    match setupMockAudio env with
    | Except.ok m => Except.ok m
    | Except.error e => Except.error ("オーディオ初期化に失敗しました: " ++ e)

/-- Did an `Except` computation fail? -/
def exceptFailed {ε α : Type} : Except ε α → Bool
  | Except.error _ => true
  | Except.ok _ => false

/-- What a connect attempt ends with: the final displayed state,
whether a WebSocket was ever constructed (a network call), and
whether `cleanup` ran. -/
structure ConnectOutcome where
  status : Status
  wsAttempted : Bool
  cleanupRan : Bool
  deriving DecidableEq, Repr

/-- `VoiceBotClient.connect`: status `connecting`, then
`initializeAudio`; on its failure the catch shows `disconnected` and
runs `cleanup` without ever constructing a WebSocket.  Otherwise
`connectWebSocket` runs (a network call); on success the client is
`connected`, on failure the catch again shows `disconnected` and runs
`cleanup`. -/
def connectRun (env : ConnectEnv) : ConnectOutcome :=
  match initializeAudio env with
  | Except.error _ => { status := Status.disconnected, wsAttempted := false, cleanupRan := true }
  | Except.ok _ =>
    if env.wsOk then { status := Status.connected, wsAttempted := true, cleanupRan := false }
    else { status := Status.disconnected, wsAttempted := true, cleanupRan := true }

/-! ### Page-level state: the heartbeat interval handle

`startPingInterval` is installed once at `DOMContentLoaded`; the
handle returned by `setInterval` is discarded, not stored on the
client, so `cleanup` has no way to clear it. -/

/-- The client state together with whether the heartbeat interval is
running. -/
structure PageState where
  client : ClientState
  pingTimerActive : Bool
  deriving DecidableEq, Repr

/-- `startPingInterval(client)`: installs the 30 s interval; the
handle is dropped. -/
def startPingInterval (p : PageState) : PageState := { p with pingTimerActive := true }

/-- `cleanup` as it acts on the whole page: it rewrites the client
fields only; the heartbeat interval is untouched. -/
def cleanupPage (p : PageState) : PageState := { p with client := (cleanup p.client).1 }

/-! ### Playback (playAudioResponse) -/

/-- The observable events of one `playAudioResponse` run. -/
inductive PlayEvent
  | setStatus : Status → PlayEvent
  | decodeAttempt
  | logDecodeError
  | logPlaybackError
  | renderStart
  deriving DecidableEq, Repr

/-- A session in the healthy connected state: socket open, real audio
wired, no mock interval. -/
def connectedClient : ClientState :=
  { ws := some WsReadyState.opened, audioContext := true, mediaStream := true,
    audioWorkletNode := true, mockAudioInterval := none,
    isConnected := true, isMuted := false,
    connectBtnText := "切断", muteBtnDisabled := false, muteBtnText := "ミュート" }

/-- A freshly constructed client: nothing acquired, socket null. -/
def idleClient : ClientState :=
  { ws := none, audioContext := false, mediaStream := false,
    audioWorkletNode := false, mockAudioInterval := none,
    isConnected := false, isMuted := false,
    connectBtnText := "接続", muteBtnDisabled := true, muteBtnText := "ミュート" }

/-- `VoiceBotClient.playAudioResponse`: status `speaking`, then
`decodeAudioData`; on decode success a buffer source is started
(rendering; its `onended` restores status `connected`); a decode or
`start` failure is caught, logged and status restored to `connected`.
`decodeOk` / `startOk` describe which awaited steps succeed. -/
def playAudioResponse (decodeOk startOk : Bool) : List PlayEvent :=
  [PlayEvent.setStatus Status.speaking, PlayEvent.decodeAttempt] ++
    (if decodeOk then
      if startOk then [PlayEvent.renderStart, PlayEvent.setStatus Status.connected]
      else [PlayEvent.logPlaybackError, PlayEvent.setStatus Status.connected]
    else [PlayEvent.logDecodeError, PlayEvent.setStatus Status.connected])

end VoiceBot

namespace VoiceBot

theorem procChunk_example :
    procChunk 3 ([] : List Nat) [1, 2, 3, 4, 5, 6, 7] = ([7], [[1, 2, 3], [4, 5, 6]]) := by
  decide

/-- Invariant of one `process` call: starting from a pending buffer
shorter than the frame, the emitted frames concatenated with the new
pending buffer recover `pending ++ chunk`, every emitted frame has
exactly `frameSize` samples, and the new pending buffer is again
shorter than the frame. -/
theorem procChunk_spec {α : Type} (frameSize : Nat) (hfs : 0 < frameSize) :
    ∀ (chunk pending : List α), pending.length < frameSize →
      (procChunk frameSize pending chunk).2.join ++ (procChunk frameSize pending chunk).1
          = pending ++ chunk ∧
        (∀ f ∈ (procChunk frameSize pending chunk).2, f.length = frameSize) ∧
        (procChunk frameSize pending chunk).1.length < frameSize := by
  intro chunk
  induction chunk with
  | nil => intro pending hp; simpa [procChunk] using hp
  | cons x rest ih =>
    intro pending hp
    by_cases hlen : frameSize ≤ pending.length + 1
    · obtain ⟨h1, h2, h3⟩ := ih [] (by simpa using hfs)
      refine ⟨?_, ?_, ?_⟩
      · simp only [procChunk, if_pos hlen, List.join, List.append_assoc]
        simpa using h1
      · simp only [procChunk, if_pos hlen, List.mem_cons]
        rintro f (rfl | hf)
        · simp; omega
        · exact h2 f hf
      · simpa only [procChunk, if_pos hlen] using h3
    · obtain ⟨h1, h2, h3⟩ := ih (pending ++ [x]) (by simp; omega)
      refine ⟨?_, ?_, ?_⟩
      · simp only [procChunk, if_neg hlen]
        simpa [List.append_assoc] using h1
      · simpa only [procChunk, if_neg hlen] using h2
      · simpa only [procChunk, if_neg hlen] using h3

/-- The single-chunk invariant, lifted to a whole stream of chunks. -/
theorem procStream_spec {α : Type} (frameSize : Nat) (hfs : 0 < frameSize) :
    ∀ (chunks : List (List α)) (pending : List α), pending.length < frameSize →
      (procStream frameSize pending chunks).2.join ++ (procStream frameSize pending chunks).1
          = pending ++ chunks.join ∧
        (∀ f ∈ (procStream frameSize pending chunks).2, f.length = frameSize) ∧
        (procStream frameSize pending chunks).1.length < frameSize := by
  intro chunks
  induction chunks with
  | nil => intro pending hp; simpa [procStream] using hp
  | cons c cs ih =>
    intro pending hp
    obtain ⟨h1, h2, h3⟩ := procChunk_spec frameSize hfs c pending hp
    obtain ⟨h1', h2', h3'⟩ := ih (procChunk frameSize pending c).1 h3
    refine ⟨?_, ?_, ?_⟩
    · simp only [procStream, List.join_append, List.append_assoc]
      rw [h1', ← List.append_assoc, h1, List.append_assoc]
      simp
    · simp only [procStream, List.mem_append]
      rintro f (hf | hf)
      · exact h2 f hf
      · exact h2' f hf
    · simpa only [procStream] using h3'

/-- Concatenating lists that all have length `n` yields `n * count`
elements. -/
theorem join_length_const {α : Type} (n : Nat) :
    ∀ (l : List (List α)), (∀ f ∈ l, f.length = n) → l.join.length = n * l.length := by
  intro l
  induction l with
  | nil => intro _; simp
  | cons f fs ih =>
    intro h
    have hf : f.length = n := h f (by simp)
    have := ih (fun g hg => h g (by simp [hg]))
    simp [List.length_append, hf, this, Nat.mul_succ, Nat.add_comm]

/-- Truncation of an integer is that integer. -/
theorem truncRat_intCast (n : ℤ) : truncRat (n : ℚ) = n := by
  unfold truncRat; split <;> simp

/-- Truncation toward zero is monotone. -/
theorem truncRat_mono {a b : ℚ} (h : a ≤ b) : truncRat a ≤ truncRat b := by
  unfold truncRat
  by_cases ha : 0 ≤ a
  · rw [if_pos ha, if_pos (le_trans ha h)]
    exact Int.floor_le_floor h
  · by_cases hb : 0 ≤ b
    · rw [if_neg ha, if_pos hb]
      have h1 : (⌈a⌉ : ℤ) ≤ 0 := Int.ceil_le.mpr (by exact_mod_cast le_of_lt (lt_of_not_ge ha))
      have h2 : (0 : ℤ) ≤ ⌊b⌋ := Int.floor_nonneg.mpr hb
      omega
    · rw [if_neg ha, if_neg hb]
      exact Int.ceil_le_ceil h

/-- Clamping to the integer interval [-32768, 32767] commutes with
truncation toward zero: clamping the rational and then storing into
the `Int16Array` gives the same value as truncating first and clamping
the integer. -/
theorem truncRat_clamp (v : ℚ) :
    truncRat (max (-32768) (min 32767 v)) = max (-32768) (min 32767 (truncRat v)) := by
  have c1 : truncRat ((-32768 : ℚ)) = -32768 := by
    have h : ((-32768 : ℚ)) = (((-32768 : ℤ) : ℚ)) := by norm_num
    rw [h, truncRat_intCast]
  have c2 : truncRat ((32767 : ℚ)) = 32767 := by
    have h : ((32767 : ℚ)) = (((32767 : ℤ) : ℚ)) := by norm_num
    rw [h, truncRat_intCast]
  rcases le_total v (-32768) with hv | hv
  · have htv : truncRat v ≤ -32768 := by
      have := truncRat_mono hv; rwa [c1] at this
    rw [min_eq_right (le_trans hv (by norm_num)), max_eq_left hv, c1,
      min_eq_right (le_trans htv (by norm_num)), max_eq_left htv]
  · rcases le_total (32767 : ℚ) v with hv2 | hv2
    · have htv : (32767 : ℤ) ≤ truncRat v := by
        have := truncRat_mono hv2; rwa [c2] at this
      rw [min_eq_left hv2, max_eq_right (by norm_num : (-32768 : ℚ) ≤ 32767), c2,
        min_eq_left htv, max_eq_right (by norm_num : (-32768 : ℤ) ≤ 32767)]
    · have htl : (-32768 : ℤ) ≤ truncRat v := by
        have := truncRat_mono hv; rwa [c1] at this
      have htu : truncRat v ≤ 32767 := by
        have := truncRat_mono hv2; rwa [c2] at this
      rw [min_eq_right hv2, max_eq_right hv, min_eq_right htu, max_eq_right htl]

/-- C1: for every sample stream delivered to the frame accumulator in
arbitrary chunk sizes, it emits `floor(total / 320)` frames of exactly
320 samples each, and the concatenation of the emitted frames equals
the prefix of the input truncated to a multiple of 320 — no sample
skipped, duplicated, or reordered across chunk boundaries. -/
theorem C1_frame_accumulator (α : Type) (chunks : List (List α)) :
    (∀ f ∈ (procStream 320 ([] : List α) chunks).2, f.length = 320) ∧
      (procStream 320 ([] : List α) chunks).2.length = chunks.join.length / 320 ∧
      (procStream 320 ([] : List α) chunks).2.join
        = chunks.join.take (320 * (chunks.join.length / 320)) := by
  obtain ⟨h1, h2, h3⟩ := procStream_spec 320 (by norm_num) chunks [] (by simp)
  have h1' : (procStream 320 ([] : List α) chunks).2.join
      ++ (procStream 320 ([] : List α) chunks).1 = chunks.join := by
    simpa using h1
  have hlen : (procStream 320 ([] : List α) chunks).2.join.length
      = 320 * (procStream 320 ([] : List α) chunks).2.length :=
    join_length_const 320 _ h2
  have htot : chunks.join.length
      = 320 * (procStream 320 ([] : List α) chunks).2.length
        + (procStream 320 ([] : List α) chunks).1.length := by
    rw [← h1', List.length_append, hlen]
  refine ⟨h2, by omega, ?_⟩
  have hdiv : 320 * (chunks.join.length / 320)
      = (procStream 320 ([] : List α) chunks).2.join.length := by omega
  rw [hdiv, ← h1']
  exact (List.take_left _ _).symm

/-- C2 counterexample: the claimed formula `clamp(round(x * 32768))`
disagrees with the encoder on the exactly representable input
3/65536: `3/65536 * 32768 = 1.5`, which the `Int16Array` store
truncates to 1 while `round` gives 2. -/
theorem C2_round_counterexample :
    encodeSample (3 / 65536) = 1 ∧ specEncodeSample (3 / 65536) = 2 ∧
      encodeSample (3 / 65536) ≠ specEncodeSample (3 / 65536) := by
  have h1 : encodeSample (3 / 65536) = 1 := by
    norm_num [encodeSample, truncRat]
  have h2 : specEncodeSample (3 / 65536) = 2 := by
    norm_num [specEncodeSample, round_eq]
  exact ⟨h1, h2, by rw [h1, h2]; decide⟩

/-- C2 (amended): for every input sample x the encoder produces
`sample16 = clamp(trunc(x * 32768), -32768, 32767)` (truncation toward
zero, not rounding), elementwise and in input order; input 1.5 encodes
to 32767, input -1.5 to -32768, input 0 to 0, and the payload has the
same length as the input frame. -/
theorem C2_encode_clamps (frame : List ℚ) :
    (encodeFrame frame).length = frame.length ∧
      encodeFrame frame
        = frame.map (fun x => max (-32768) (min 32767 (truncRat (x * 32768)))) ∧
      encodeSample (3 / 2) = 32767 ∧ encodeSample (-(3 / 2)) = -32768 ∧
      encodeSample 0 = 0 := by
  refine ⟨by simp [encodeFrame], ?_, ?_, ?_, ?_⟩
  · have h : encodeSample = fun x => max (-32768) (min 32767 (truncRat (x * 32768))) :=
      funext fun x => truncRat_clamp (x * 32768)
    rw [encodeFrame, h]
  · norm_num [encodeSample, truncRat]
  · show truncRat (max (-32768) (min 32767 (-(3 / 2) * 32768))) = -32768
    have h : max (-32768 : ℚ) (min 32767 (-(3 / 2) * 32768)) = ((-32768 : ℤ) : ℚ) := by
      norm_num
    rw [h, truncRat_intCast]
  · norm_num [encodeSample, truncRat]

/-- C3 counterexample: with the session muted, a captured frame from
the real path triggers no action at all — in particular it is NOT
passed to the visualizer — and a muted mock tick likewise does
nothing. -/
theorem C3_muted_counterexample :
    onWorkletMessage true "audioData" [0] = [] ∧ mockAudioTick true true [0] = [] := by
  constructor <;> rfl

/-- C3 (amended): whenever the session is muted, `sendAudioData` is
never called — zero binary sends over any number of frame periods on
both capture paths — but, contrary to the claim, muted frames are not
passed to the visualizer either: the real path drops the frame after
accumulation and the mock path produces no frame. -/
theorem C3_mute_gating (deliveries : List (String × List ℚ)) (ticks : List (Bool × List ℚ)) :
    (deliveries.map fun d => onWorkletMessage true d.1 d.2).join = [] ∧
      (ticks.map fun t => mockAudioTick true t.1 t.2).join = [] := by
  constructor
  · induction deliveries with
    | nil => rfl
    | cons d ds ih => simp [onWorkletMessage]
  · induction ticks with
    | nil => rfl
    | cons t ts ih => simp [mockAudioTick]

/-- C4 counterexample: when only the capture device fails
(`getUserMedia` rejects) but the mock fallback and the socket work,
`connect` ends `connected` with the transport opened — not back at
`disconnected` with no network call, as claimed. -/
theorem C4_mic_failure_counterexample :
    connectRun { micOk := false, realSetupOk := true, mockSetupOk := true, wsOk := true }
      = { status := Status.connected, wsAttempted := true, cleanupRan := false } := rfl

/-- C4 (amended): capture-device failure alone falls back to the mock
source and the connect proceeds; only when audio initialization fails
as a whole (the mock setup fails too) does the session end back at
`disconnected` with no WebSocket ever constructed and full cleanup
run. -/
theorem C4_audio_failure_disconnected (env : ConnectEnv)
    (h : exceptFailed (initializeAudio env) = true) :
    connectRun env
      = { status := Status.disconnected, wsAttempted := false, cleanupRan := true } := by
  unfold connectRun
  cases he : initializeAudio env with
  | error e => rfl
  | ok m => rw [he] at h; simp [exceptFailed] at h

/-- Witness for C4: with the microphone denied and the mock setup also
failing, audio initialization fails and connect ends disconnected with
no transport opened. -/
theorem C4_audio_failure_witness :
    exceptFailed (initializeAudio
        { micOk := false, realSetupOk := true, mockSetupOk := false, wsOk := true }) = true ∧
      connectRun { micOk := false, realSetupOk := true, mockSetupOk := false, wsOk := true }
        = { status := Status.disconnected, wsAttempted := false, cleanupRan := true } :=
  ⟨rfl, C4_audio_failure_disconnected _ rfl⟩

/-- C5: cleanup (and disconnect) is idempotent: from any state, a
second call yields the same fully-released disconnected end state and
performs no release operation (releasing an already released resource
is a no-op, so nothing can throw), and after one call every resource
(timer, socket, worklet node, audio context, media stream) is
released. -/
theorem C5_cleanup_idempotent (s : ClientState) :
    (cleanup (cleanup s).1).1 = (cleanup s).1 ∧
      (disconnect (disconnect s).1).1 = (disconnect s).1 ∧
      (cleanup (cleanup s).1).2 = [] ∧
      (cleanup s).1.isConnected = false ∧
      (cleanup s).1.ws = none ∧
      (cleanup s).1.mockAudioInterval = none ∧
      (cleanup s).1.audioWorkletNode = false ∧
      (cleanup s).1.audioContext = false ∧
      (cleanup s).1.mediaStream = false :=
  ⟨rfl, rfl, rfl, rfl, rfl, rfl, rfl, rfl, rfl⟩

/-- C6: while connected (socket open), the heartbeat sends `{type:
ping}` every 30 seconds: over a 90-second connected session exactly
the three pings fired at 30, 60 and 90 seconds are sent, and a firing
while not connected sends nothing. -/
theorem C6_heartbeat (sessionAt : Nat → ClientState)
    (h : ∀ t, t ≤ 90 →
      (sessionAt t).isConnected = true ∧ (sessionAt t).ws = some WsReadyState.opened) :
    pingsSentOver sessionAt 90
        = [WireSend.text ⟨"ping"⟩, WireSend.text ⟨"ping"⟩, WireSend.text ⟨"ping"⟩] ∧
      ∀ s : ClientState, s.isConnected = false → pingTimerCallback s = [] := by
  constructor
  · have h30 := h 30 (by norm_num)
    have h60 := h 60 (by norm_num)
    have h90 := h 90 (by norm_num)
    show ((List.range 3).map fun k => pingTimerCallback (sessionAt (30 * (k + 1)))).join = _
    simp [List.range_succ, pingTimerCallback, sendControlMessage,
      h30.1, h60.1, h90.1, h30.2, h60.2, h90.2]
  · intro s hs
    simp [pingTimerCallback, hs]

/-- Witness for C6: a session that stays in the healthy connected
state for the whole 90 seconds sends exactly three pings. -/
theorem C6_heartbeat_witness :
    (∀ t : Nat, t ≤ 90 → ((fun _ => connectedClient) t).isConnected = true ∧
        ((fun _ => connectedClient) t).ws = some WsReadyState.opened) ∧
      pingsSentOver (fun _ => connectedClient) 90
        = [WireSend.text ⟨"ping"⟩, WireSend.text ⟨"ping"⟩, WireSend.text ⟨"ping"⟩] :=
  ⟨fun _ _ => ⟨rfl, rfl⟩,
    (C6_heartbeat (fun _ => connectedClient) (fun _ _ => ⟨rfl, rfl⟩)).1⟩

/-- C7: a `sendAudioData` or `sendControlMessage` call made while the
socket is absent or not in the OPEN state transmits nothing, raises no
error and leaves the client state unchanged. -/
theorem C7_send_noop_when_closed (s : ClientState) (frame : List ℚ) (m : ControlMessage)
    (h : s.ws ≠ some WsReadyState.opened) :
    sendAudioData s frame = (s, []) ∧ sendControlMessage s m = (s, []) := by
  cases hws : s.ws with
  | none => simp [sendAudioData, sendControlMessage, hws]
  | some r =>
    cases r with
    | opened => exact absurd hws h
    | connecting => simp [sendAudioData, sendControlMessage, hws]
    | closing => simp [sendAudioData, sendControlMessage, hws]
    | closed => simp [sendAudioData, sendControlMessage, hws]

/-- Witness for C7: on a fresh client (null socket) both sends are
silent no-ops. -/
theorem C7_send_noop_witness :
    idleClient.ws ≠ some WsReadyState.opened ∧
      sendAudioData idleClient [1] = (idleClient, []) ∧
      sendControlMessage idleClient ⟨"ping"⟩ = (idleClient, []) := by
  have h : idleClient.ws ≠ some WsReadyState.opened := by
    intro hc
    exact Option.noConfusion hc
  have hs := C7_send_noop_when_closed idleClient [1] ⟨"ping"⟩ h
  exact ⟨h, hs.1, hs.2⟩

/-- C8: on every inbound binary payload the client first shows
`speaking` and finally shows `connected` — after successful rendering,
after a playback failure and after a decode failure alike; a decode
failure is logged, rendering is skipped, decoding is attempted exactly
once (no retry), and no run ever shows `disconnected`. -/
theorem C8_playback_recovery (decodeOk startOk : Bool) :
    (playAudioResponse decodeOk startOk).head? = some (PlayEvent.setStatus Status.speaking) ∧
      (playAudioResponse decodeOk startOk).getLast?
        = some (PlayEvent.setStatus Status.connected) ∧
      (playAudioResponse decodeOk startOk).count PlayEvent.decodeAttempt = 1 ∧
      PlayEvent.setStatus Status.disconnected ∉ playAudioResponse decodeOk startOk ∧
      PlayEvent.logDecodeError ∈ playAudioResponse false startOk ∧
      PlayEvent.renderStart ∉ playAudioResponse false startOk := by
  cases decodeOk <;> cases startOk <;> decide

/-- C9 counterexample: cleaning up a page whose heartbeat interval is
running cancels the mock-frame timer but leaves the heartbeat interval
active — `cleanup` never clears it, since `startPingInterval` discards
the `setInterval` handle. -/
theorem C9_ping_timer_counterexample :
    (cleanupPage { client := connectedClient, pingTimerActive := true }).pingTimerActive
        = true ∧
      (cleanupPage { client :=
          { connectedClient with mockAudioInterval := some 1 }, pingTimerActive := true
        }).client.mockAudioInterval = none := ⟨rfl, rfl⟩

/-- C9 (amended): cleanup cancels the mock-frame timer, but the
heartbeat interval — whose handle was discarded by
`startPingInterval` — keeps running; it does fire into the torn-down
session, and only because its callback is gated on `isConnected`
(false after cleanup) does it send nothing. -/
theorem C9_cleanup_timers (p : PageState) :
    (cleanupPage p).client.mockAudioInterval = none ∧
      (cleanupPage p).pingTimerActive = p.pingTimerActive ∧
      pingTimerCallback (cleanupPage p).client = [] :=
  ⟨rfl, rfl, rfl⟩

/-- C10: cleanup unconditionally resets the mute flag and restores the
mute-button label, whatever the state before teardown, so the next
session starts unmuted; `disconnect` does the same. -/
theorem C10_cleanup_resets_mute (s : ClientState) :
    (cleanup s).1.isMuted = false ∧ (cleanup s).1.muteBtnText = "ミュート" ∧
      (disconnect s).1.isMuted = false ∧ (disconnect s).1.muteBtnText = "ミュート" :=
  ⟨rfl, rfl, rfl, rfl⟩

end VoiceBot
